import Mathlib

/-
  Verification of the FortunasBet bet grading and consistency engine.

  Shallow embedding of src/common/helpers/bet_helper.py (class BetHelper),
  src/common/helpers/week_helper.py and src/common/helpers/nfl_helper.py.

  Conventions of the embedding:
  * DynamoDB is modelled as a list of records keyed by the (PK, SK) string
    pair, exactly the strings the source builds ("ROOM#{room_id}" and
    "POINT#{points}#USER#{user}#EVENT#{event}").  put_item replaces the
    record with the same key or appends; queries are list filters with the
    same key conditions and filter expressions as the source.
  * External collaborators (the ESPN feed, the week resolver) are passed in
    as explicit arguments: a FeedResult stands for one get_event call
    (raised exception / falsy response / payload), and the resolved week
    boundary stands for WeekHelper.get_week_boundary.
  * Python floats are modelled as rationals.  Every numeric literal the
    grading code compares (half-point lines such as -3.5 or 45.5, integer
    scores) is exactly representable in binary floating point, so rational
    arithmetic agrees with the float arithmetic of the source on this
    domain.
  * Fallible Python code (KeyError, ValueError, missing dict fields) is
    modelled with Option; raised-and-caught exceptions become the same
    values the except-handlers return.  Decimal<->float conversion for the
    store (_convert_floats_to_decimals and back) is the identity on the
    modelled fields and is omitted.
-/

/-- Python str.lower on the ASCII domain used by the grading code. -/
def pyLower (s : String) : String := ⟨s.data.map Char.toLower⟩

/-- DynamoDB contains(path, operand) on strings is substring containment. -/
def strContains (s pat : String) : Bool := decide (pat.data <:+: s.data)

/-- DynamoDB begins_with(path, operand) on strings. -/
def strStartsWith (s pre : String) : Bool := decide (pre.data <+: s.data)

/-- Python str.split(sep) with an explicit one-character separator:
keeps empty fields, exactly like the source's spread_details.split(" "). -/
def splitOnChar (sep : Char) : List Char → List (List Char)
  | [] => [[]]
  | c :: rest =>
    let r := splitOnChar sep rest
    if c = sep then [] :: r
    else
      match r with
      | [] => [[c]]
      | h :: t => (c :: h) :: t

/-- Numeric value of a list of decimal digits. -/
def digitsVal (l : List Char) : Nat := l.foldl (fun a c => 10 * a + (c.toNat - 48)) 0

/-- Parse an unsigned decimal literal (digits, optionally with one dot)
into a rational, as Python float() does on the spread strings the feed
produces; anything else is a ValueError, i.e. none. -/
def parseUnsignedQ (l : List Char) : Option ℚ :=
  match splitOnChar '.' l with
  | [a] =>
    if !a.isEmpty && a.all Char.isDigit then some (digitsVal a) else none
  | [a, b] =>
    if (!a.isEmpty || !b.isEmpty) && a.all Char.isDigit && b.all Char.isDigit then
      some ((digitsVal a : ℚ) + (digitsVal b : ℚ) / ((10 : ℚ) ^ b.length))
    else none
  | _ => none

/-- Parse a signed decimal literal into a rational (Python float()). -/
def parseFloatQ : List Char → Option ℚ
  | '-' :: rest => (parseUnsignedQ rest).map (fun q => -q)
  | '+' :: rest => parseUnsignedQ rest
  | l => parseUnsignedQ l

/-- float(spread_details.split(" ")[1]) from _grade_spread_bet:
IndexError (fewer than two fields) and ValueError (not a float literal)
are caught by the source and yield none. -/
def parseSpreadDetails (sd : String) : Option ℚ :=
  match (splitOnChar ' ' sd.data).get? 1 with
  | none => none
  | some tok => parseFloatQ tok

/-- status object of one ESPN get_event response, as the ESPN client
restructures it: {name, state, detail, completed}. -/
structure GameStatus where
  name : String
  state : String
  detail : String
  completed : Bool
deriving DecidableEq

/-- One entry of the competitors list of a get_event response.
score models int(competitor.get("score", 0)): a missing score key is
some 0, an unparseable score string is none (the ValueError branch). -/
structure Competitor where
  name : String
  abbreviation : Option String
  homeAway : String
  score : Option Int
deriving DecidableEq

/-- The payload of a successful get_event call (the GameSnapshot). -/
structure GameData where
  status : GameStatus
  competitors : List Competitor
deriving DecidableEq

/-- Outcome of one espn_client.get_event call as seen by the caller:
a raised exception, a falsy (empty) response, or a payload. -/
inductive FeedResult where
  | fetchError : FeedResult
  | missing : FeedResult
  | data : GameData → FeedResult
deriving DecidableEq

/-- Bet type of a GameBet (Literal["spread", "over_under"]). -/
inductive BetType where
  | spread : BetType
  | over_under : BetType
deriving DecidableEq

/-- Nested GameBet of a bet record (common/models/bet.py).  Optional
fields that pydantic defaults to None are Options. -/
structure GameBet where
  bet_type : BetType
  team_choice : Option String
  spread_value : Option ℚ
  over_under_choice : Option String
  total_value : Option ℚ
  result : Option String
  points_earned : Option Nat
deriving DecidableEq

/-- The odds_snapshot dict, restricted to the fields the grading code
reads or writes: spreadDetails and the status object it stores back. -/
structure OddsSnapshot where
  spreadDetails : Option String
  status : Option GameStatus
deriving DecidableEq

/-- Team view built by _enhance_bet_with_game_data. -/
structure TeamInfo where
  name : String
  short_name : String
  score : Int
deriving DecidableEq

/-- game_status structure attached (not persisted) by the read-path
enhancement step. -/
structure GameStatusView where
  status : GameStatus
  home_team : Option TeamInfo
  away_team : Option TeamInfo
  game_id : String
deriving DecidableEq

/-- A bet record as stored in DynamoDB / produced by BetModel.dict().
PK and SK are "" on a fresh submission and set by create_bet; records
read back from the table carry them.  current_status is the field the
grading code fills with the raw feed payload when odds_snapshot is not a
dict; game_status is the read-path enhancement overlay. -/
structure BetRecord where
  PK : String
  SK : String
  room_id : String
  user_id : String
  points_wagered : Nat
  event_datetime : Int
  sport : String
  league : String
  game_id : String
  game_bet : GameBet
  total_points_earned : Option Nat
  graded_at : Option Int
  odds_snapshot : Option OddsSnapshot
  current_status : Option GameData
  game_status : Option GameStatusView
  locked : Bool
  submitted_at : Int
deriving DecidableEq

/-- Partition key built by create_bet. -/
def mkPK (room_id : String) : String := "ROOM#" ++ room_id

/-- Sort key built by create_bet. -/
def mkSK (points_wagered : Nat) (user_id : String) (event_datetime : Int) : String :=
  "POINT#" ++ toString points_wagered ++ "#USER#" ++ user_id
    ++ "#EVENT#" ++ toString event_datetime

/-- The bet table: a list of records, at most one per (PK, SK) pair. -/
abbrev Store := List BetRecord

/-- DynamoDB get_item by exact (PK, SK). -/
def getItem (store : Store) (pk sk : String) : Option BetRecord :=
  store.find? (fun r => decide (r.PK = pk ∧ r.SK = sk))

/-- DynamoDB put_item: replace the record with the same key, else append.
It is unconditional — no ConditionExpression appears anywhere in
bet_helper.py, so an existing record with the same key is overwritten. -/
def putItem : Store → BetRecord → Store
  | [], item => [item]
  | r :: rest, item =>
    if r.PK = item.PK ∧ r.SK = item.SK then item :: rest
    else r :: putItem rest item

/-- The errors the bet-creation path can raise.  Both exactDuplicate and
weekConflict are DuplicateBetException in the source; the constructors
record which call site raised (bet_helper.py line 83 vs line 391).
duplicateGame is DuplicateGameException (line 108). -/
inductive BetError where
  | exactDuplicate : BetError
  | weekConflict : BetError
  | duplicateGame : BetError
deriving DecidableEq

/-- Score extraction loop of _grade_spread_bet (lines 674-694): walk the
competitors, parse each score (a parse failure aborts the whole grading
with none), and keep the last home and away scores seen. -/
def extractScores : List Competitor → Option Int × Option Int → Option (Option Int × Option Int)
  | [], acc => some acc
  | c :: rest, acc =>
    match c.score with
    | none => none
    | some s =>
      let acc' :=
        if pyLower c.homeAway = "home" then (some s, acc.2)
        else if pyLower c.homeAway = "away" then (acc.1, some s)
        else acc
      extractScores rest acc'

/-- BetHelper._grade_spread_bet (bet_helper.py lines 621-740).  Returns
points earned (points_wagered on a win, 0 on a loss) or none on any
error.  The win rule branches on the sign of the parsed spread value:
margin >= |spread| for negative lines, margin > spread otherwise
(lines 719-725). -/
def _grade_spread_bet (bet : BetRecord) (g : GameData) : Option Nat :=
  match bet.odds_snapshot with
  | none => none
  | some snap =>
    match snap.spreadDetails with
    | none => none
    | some sd =>
      if sd = "" then none
      else
        match parseSpreadDetails sd with
        | none => none
        | some spread_value =>
          if g.competitors.isEmpty then none
          else
            match extractScores g.competitors (none, none) with
            | none => none
            | some (none, _) => none
            | some (_, none) => none
            | some (some home_score, some away_score) =>
              match bet.game_bet.team_choice with
              | none => none
              | some tc =>
                let selected_score := if pyLower tc = "home" then home_score else away_score
                let opponent_score := if pyLower tc = "home" then away_score else home_score
                let margin := selected_score - opponent_score
                let user_wins :=
                  if spread_value < 0 then decide ((margin : ℚ) ≥ |spread_value|)
                  else decide ((margin : ℚ) > spread_value)
                some (if user_wins then bet.points_wagered else 0)

/-- Spread grading as claim C1 and spec section 4.4 step 6 describe it:
the same extraction pipeline as _grade_spread_bet but with the single
win rule margin > spread_value for every sign of the line, no
special-casing of negative spreads. -/
def grade_spread_bet_single_rule (bet : BetRecord) (g : GameData) : Option Nat :=
  match bet.odds_snapshot with
  | none => none
  | some snap =>
    match snap.spreadDetails with
    | none => none
    | some sd =>
      if sd = "" then none
      else
        match parseSpreadDetails sd with
        | none => none
        | some spread_value =>
          if g.competitors.isEmpty then none
          else
            match extractScores g.competitors (none, none) with
            | none => none
            | some (none, _) => none
            | some (_, none) => none
            | some (some home_score, some away_score) =>
              match bet.game_bet.team_choice with
              | none => none
              | some tc =>
                let selected_score := if pyLower tc = "home" then home_score else away_score
                let opponent_score := if pyLower tc = "home" then away_score else home_score
                let margin := selected_score - opponent_score
                let user_wins := decide ((margin : ℚ) > spread_value)
                some (if user_wins then bet.points_wagered else 0)

/-- Score summation loop of _grade_over_under_bet (lines 777-791): a
parse failure on any competitor aborts with none. -/
def sumScores : List Competitor → Option Int
  | [] => some 0
  | c :: rest =>
    match c.score, sumScores rest with
    | some s, some t => some (s + t)
    | _, _ => none

/-- BetHelper._grade_over_under_bet (bet_helper.py lines 742-815).
Win iff total > line for "over"; the else branch (anything that is not
"over", in particular "under") wins iff total < line. -/
def _grade_over_under_bet (bet : BetRecord) (g : GameData) : Option Nat :=
  match bet.game_bet.total_value with
  | none => none
  | some total_line =>
    if g.competitors.isEmpty then none
    else
      match sumScores g.competitors with
      | none => none
      | some total_score =>
        match bet.game_bet.over_under_choice with
        | none => none
        | some c =>
          let user_wins :=
            if pyLower c = "over" then decide ((total_score : ℚ) > total_line)
            else decide ((total_score : ℚ) < total_line)
          some (if user_wins then bet.points_wagered else 0)

/-- BetHelper._update_bet_result (bet_helper.py lines 817-881): set
total_points_earned and graded_at, embed the "win"/"loss" label and
points into game_bet, and put the whole record back in a single write. -/
def _update_bet_result (now : Int) (bet : BetRecord) (points_earned : Nat)
    (store : Store) : BetRecord × Store :=
  let bet' := { bet with
    total_points_earned := some points_earned
    graded_at := some now
    game_bet := { bet.game_bet with
      result := some (if points_earned > 0 then "win" else "loss")
      points_earned := some points_earned } }
  (bet', putItem store bet')

/-- Finality test of check_and_grade_bet (bet_helper.py lines 569-574):
an OR of four signals.  Note state is compared to "post" without
lowercasing, exactly as in the source. -/
def is_final (st : GameStatus) : Bool :=
  decide (pyLower st.name = "final" ∨ pyLower st.name = "status_final")
  || decide (pyLower st.detail = "final")
  || st.completed
  || decide (st.state = "post")

/-- Snapshot refresh of check_and_grade_bet (lines 544-550): when the
record has a dict odds_snapshot only its status field is replaced;
otherwise the whole raw feed payload is stored under current_status. -/
def snapshotUpdate (bet : BetRecord) (g : GameData) : BetRecord :=
  match bet.odds_snapshot with
  | some snap => { bet with odds_snapshot := some { snap with status := some g.status } }
  | none => { bet with current_status := some g }

/-- BetHelper.check_and_grade_bet (bet_helper.py lines 486-619), the
grade_if_needed operation.  Skips when total_points_earned is non-null;
on a feed exception or falsy feed response returns none with the store
untouched; otherwise refreshes the snapshot (persisted when the record
carries its keys), stops if the game is not final, and otherwise grades
by bet type and persists via _update_bet_result.  The outer except
swallows every error, so the function is total and the first component
none means "no graded update". -/
def check_and_grade_bet (now : Int) (feed : FeedResult) (bet : BetRecord)
    (store : Store) : Option BetRecord × Store :=
  if bet.total_points_earned.isSome then (none, store)
  else
    match feed with
    | .fetchError => (none, store)
    | .missing => (none, store)
    | .data g =>
      let bet1 := snapshotUpdate bet g
      let store1 := if bet1.PK ≠ "" ∧ bet1.SK ≠ "" then putItem store bet1 else store
      if is_final g.status then
        match bet1.game_bet.bet_type with
        | .spread =>
          match _grade_spread_bet bet1 g with
          | some pts =>
            let us := _update_bet_result now bet1 pts store1
            (some us.1, us.2)
          | none => (none, store1)
        | .over_under =>
          match _grade_over_under_bet bet1 g with
          | some pts =>
            let us := _update_bet_result now bet1 pts store1
            (some us.1, us.2)
          | none => (none, store1)
      else (some bet1, store1)

/-- One read-path grading step: use the graded record when
check_and_grade_bet produced one, else keep the record as read
(bet_helper.py lines 146-148 and 185-191). -/
def gradeStep (now : Int) (feed : FeedResult) (p : BetRecord × Store) : BetRecord × Store :=
  let r := check_and_grade_bet now feed p.1 p.2
  (r.1.getD p.1, r.2)

/-- n successive invocations of the read-path grading step. -/
def grade_iter (now : Int) (feed : FeedResult) : Nat → BetRecord × Store → BetRecord × Store
  | 0, p => p
  | n + 1, p => grade_iter now feed n (gradeStep now feed p)

/-- Team-view construction loop of _enhance_bet_with_game_data (lines
445-457): a score parse failure raises, is caught by the outer except,
and leaves the bet unmodified (modelled as none). -/
def buildTeamViews : List Competitor → Option TeamInfo × Option TeamInfo →
    Option (Option TeamInfo × Option TeamInfo)
  | [], acc => some acc
  | c :: rest, acc =>
    match c.score with
    | none => none
    | some s =>
      let ti : TeamInfo :=
        { name := c.name
          short_name := c.abbreviation.getD ⟨(c.name.data.take 3).map Char.toUpper⟩
          score := s }
      let acc' :=
        if pyLower c.homeAway = "home" then (some ti, acc.2)
        else if pyLower c.homeAway = "away" then (acc.1, some ti)
        else acc
      buildTeamViews rest acc'

/-- BetHelper._enhance_bet_with_game_data (bet_helper.py lines 408-484):
overlay a structured game_status onto the returned record (never
persisted on this path); any failure returns the record unchanged. -/
def _enhance_bet_with_game_data (feed : FeedResult) (bet : BetRecord) : BetRecord :=
  if bet.game_id = "" ∨ bet.sport = "" ∨ bet.league = "" then bet
  else
    match feed with
    | .data g =>
      match buildTeamViews g.competitors (none, none) with
      | some (ht, at_) =>
        { bet with game_status := some { status := g.status, home_team := ht,
                                         away_team := at_, game_id := bet.game_id } }
      | none => bet
    | _ => bet

/-- The per-item body of the multi-bet read paths (get_all_bets_for_room,
get_bets_by_point_value, get_user_bets_for_room): grade each record in
turn, threading the store, and enhance the graded-or-original record. -/
def grade_and_enhance_list (now : Int) (feed : String → FeedResult) :
    List BetRecord → Store → List BetRecord × Store
  | [], store => ([], store)
  | b :: rest, store =>
    let r := check_and_grade_bet now (feed b.game_id) b store
    let item := _enhance_bet_with_game_data (feed b.game_id) (r.1.getD b)
    let rec_rest := grade_and_enhance_list now feed rest r.2
    (item :: rec_rest.1, rec_rest.2)

/-- BetHelper.get_all_bets_for_room (bet_helper.py lines 163-197): query
the room partition with SK prefix "POINT#", then grade and enhance each
record. -/
def get_all_bets_for_room (now : Int) (feed : String → FeedResult) (store : Store)
    (room_id : String) : List BetRecord × Store :=
  let items := store.filter (fun r =>
    decide (r.PK = mkPK room_id) && strStartsWith r.SK "POINT#")
  grade_and_enhance_list now feed items store

/-- BetHelper.get_bet (bet_helper.py lines 123-161): exact-key get, then
lazy grading and enhancement of the found record. -/
def get_bet (now : Int) (feed : FeedResult) (store : Store) (room_id : String)
    (points_wagered : Nat) (user_id : String) (event_datetime : Int) :
    Option BetRecord × Store :=
  match getItem store (mkPK room_id) (mkSK points_wagered user_id event_datetime) with
  | none => (none, store)
  | some item =>
    let r := check_and_grade_bet now feed item store
    (some (_enhance_bet_with_game_data feed (r.1.getD item)), r.2)

/-- BetHelper.get_user_game_ids_for_room (bet_helper.py lines 285-322):
query the room partition with SK prefix "POINT#" and keep the game_id of
every item whose SK CONTAINS "USER#{user_id}" as a substring. -/
def get_user_game_ids_for_room (store : Store) (room_id user_id : String) : List String :=
  (store.filter (fun r =>
    decide (r.PK = mkPK room_id) && strStartsWith r.SK "POINT#"
      && strContains r.SK ("USER#" ++ user_id))).map (fun r => r.game_id)

/-- BetHelper.validate_week_boundary_bet (bet_helper.py lines 324-406).
The resolved boundary is the result of WeekHelper.get_week_boundary; when
it is none the bet is allowed with a warning (fail-open, lines 363-367).
Otherwise the room partition is scanned with the filter
contains(SK, "POINT#{points}#USER#{user}") AND event_datetime BETWEEN
the boundary, and any hit raises the week-conflict
DuplicateBetException. -/
def validate_week_boundary_bet (boundary : Option (Int × Int)) (store : Store)
    (room_id user_id : String) (points_wagered : Nat) : Except BetError Bool :=
  match boundary with
  | none => .ok true
  | some (week_start, week_end) =>
    let existing := store.filter (fun r =>
      decide (r.PK = mkPK room_id)
        && strContains r.SK ("POINT#" ++ toString points_wagered ++ "#USER#" ++ user_id)
        && decide (week_start ≤ r.event_datetime)
        && decide (r.event_datetime ≤ week_end))
    if existing.isEmpty then .ok true else .error .weekConflict

/-- The write step of create_bet (bet_helper.py lines 110-121): a plain
table.put_item with no ConditionExpression.  ClientError can only signal
a transport failure, never "an item with this key already exists", so in
the store model the write always succeeds and overwrites. -/
def create_bet_write (store : Store) (item : BetRecord) :
    Except BetError (BetRecord × Store) :=
  .ok (item, putItem store item)

/-- BetHelper.create_bet (bet_helper.py lines 70-121), in source order:
exact-key existence check via get_bet (raising the exact-duplicate
DuplicateBetException), week-boundary validation, key construction, the
same-game check via get_user_game_ids_for_room, then the unconditional
write. -/
def create_bet (now : Int) (feed : FeedResult) (boundary : Option (Int × Int))
    (bet : BetRecord) (store : Store) : Except BetError (BetRecord × Store) :=
  let gb := get_bet now feed store bet.room_id bet.points_wagered bet.user_id
    bet.event_datetime
  if gb.1.isSome then .error .exactDuplicate
  else
    match validate_week_boundary_bet boundary gb.2 bet.room_id bet.user_id
      bet.points_wagered with
    | .error e => .error e
    | .ok _ =>
      let item := { bet with
        PK := mkPK bet.room_id
        SK := mkSK bet.points_wagered bet.user_id bet.event_datetime }
      if bet.game_id ∈ get_user_game_ids_for_room gb.2 bet.room_id bet.user_id then
        .error .duplicateGame
      else create_bet_write gb.2 item

/-- Week information of one event of the ESPN season schedule, as read by
find_nfl_week_by_game_id: the nested season.week and season.type values,
none when the field is missing. -/
structure ScheduleEvent where
  id : String
  week : Option Nat
  season_type : Option Nat
deriving DecidableEq

/-- NFLHelper.find_nfl_week_by_game_id (nfl_helper.py lines 222-267):
scan the schedule events for the matching id.  schedule = none models a
missing or errored schedule response ("events" absent or an exception),
both of which the source turns into None. -/
def find_nfl_week_by_game_id (schedule : Option (List ScheduleEvent))
    (game_id : String) : Option ScheduleEvent :=
  match schedule with
  | none => none
  | some events => events.find? (fun e => decide (e.id = game_id))

/-- NFLHelper.get_week_boundary_by_game_id (nfl_helper.py lines 269-314).
weekDates abstracts get_week_dates_for_season composed with the epoch
conversion (pure datetime arithmetic on season_type and week).  A game
not found in the schedule, or a falsy week or season_type, yields none
rather than an error. -/
def get_week_boundary_by_game_id (schedule : Option (List ScheduleEvent))
    (weekDates : Nat → Nat → Int × Int) (game_id : String) : Option (Int × Int) :=
  match find_nfl_week_by_game_id schedule game_id with
  | none => none
  | some wi =>
    match wi.week, wi.season_type with
    | some w, some st => if w = 0 || st = 0 then none else some (weekDates st w)
    | _, _ => none

/-- BetHelper.reset_bets_for_room (bet_helper.py lines 937-964): fetch
every bet of the room through the read path — which grades each record
and attaches the feed-derived game_status enhancement to the dict in
place — then null out total_points_earned and put each whole enhanced
record back.  Returns the number of bets reset. -/
def reset_bets_for_room (now : Int) (feed : String → FeedResult) (store : Store)
    (room_id : String) : Nat × Store :=
  let res := get_all_bets_for_room now feed store room_id
  (res.1.length,
   res.1.foldl (fun s b => putItem s { b with total_points_earned := none }) res.2)

/-- BetHelper.reset_bet (bet_helper.py lines 966-1002): fetch one bet
through the read path (graded and carrying the game_status enhancement),
null total_points_earned, and put the whole enhanced record back;
a missing bet is a warning and a no-op. -/
def reset_bet (now : Int) (feed : FeedResult) (store : Store) (room_id : String)
    (points_wagered : Nat) (user_id : String) (event_datetime : Int) : Store :=
  let res := get_bet now feed store room_id points_wagered user_id event_datetime
  match res.1 with
  | none => res.2
  | some b => putItem res.2 { b with total_points_earned := none }

/-
  Concrete fixtures used by witnesses and counterexamples.  Numeric odds
  values inside GameBet are none unless a scenario needs them, so that
  record equality is kernel-decidable.
-/

/-- A game status as the feed reports a finished game. -/
def finalStatus : GameStatus :=
  { name := "STATUS_FINAL", state := "post", detail := "Final", completed := true }

/-- A game status as the feed reports a scheduled game. -/
def schedStatus : GameStatus :=
  { name := "STATUS_SCHEDULED", state := "pre",
    detail := "Sat, September 7th at 1:00 PM EDT", completed := false }

/-- A game status as the feed reports a game in progress. -/
def liveStatus : GameStatus :=
  { name := "STATUS_IN_PROGRESS", state := "in",
    detail := "10:23 - 2nd Quarter", completed := false }

/-- A finished game with the given home and away scores. -/
def exGame (hs as_ : Int) : GameData :=
  { status := finalStatus,
    competitors :=
      [ { name := "H", abbreviation := none, homeAway := "home", score := some hs },
        { name := "A", abbreviation := none, homeAway := "away", score := some as_ } ] }

/-- GameBet of a 2-point home spread bet. -/
def exSpreadGameBet : GameBet :=
  { bet_type := .spread, team_choice := some "home", spread_value := none,
    over_under_choice := none, total_value := none, result := none, points_earned := none }

/-- An ungraded 2-point home spread bet whose odds_snapshot carries the
line "SEA -3.5". -/
def exSpreadBet : BetRecord :=
  { PK := "", SK := "", room_id := "r1", user_id := "u1", points_wagered := 2,
    event_datetime := 100, sport := "football", league := "nfl", game_id := "g1",
    game_bet := exSpreadGameBet, total_points_earned := none, graded_at := none,
    odds_snapshot := some { spreadDetails := some "SEA -3.5", status := none },
    current_status := none, game_status := none, locked := true, submitted_at := 1 }

/-- An ungraded 3-point bet on the over at a 45.5 total line. -/
def exOverBet : BetRecord :=
  { PK := "", SK := "", room_id := "r1", user_id := "u1", points_wagered := 3,
    event_datetime := 100, sport := "football", league := "nfl", game_id := "g1",
    game_bet := { bet_type := .over_under, team_choice := none, spread_value := none,
                  over_under_choice := some "over", total_value := some 45.5,
                  result := none, points_earned := none },
    total_points_earned := none, graded_at := none, odds_snapshot := none,
    current_status := none, game_status := none, locked := true, submitted_at := 1 }

/-- The same wager on the under. -/
def exUnderBet : BetRecord :=
  { exOverBet with
    game_bet := { bet_type := .over_under, team_choice := none, spread_value := none,
                  over_under_choice := some "under", total_value := some 45.5,
                  result := none, points_earned := none } }

/-- An already-graded bet record as stored in the table. -/
def gradedBet : BetRecord :=
  { exSpreadBet with
    PK := "ROOM#r1", SK := mkSK 2 "u1" 100,
    total_points_earned := some 2, graded_at := some 1700000000 }

/-- An ungraded bet stored in the table (keys set, snapshot present). -/
def storedBet : BetRecord :=
  { exSpreadBet with
    PK := "ROOM#r1", SK := mkSK 2 "u1" 100 }

/-- A record identical to storedBet except for its graded fields; used to
exercise the unconditional overwrite of create_bet's write step. -/
def storedBetOverwrite : BetRecord :=
  { storedBet with total_points_earned := some 2, graded_at := some 5 }

/-- A fresh submission carrying the same (room, points, user, event) key
as storedBet, with empty PK/SK as built by BetModel.dict(). -/
def submissionDup : BetRecord :=
  { exSpreadBet with game_id := "g2" }

/-- A fresh submission by user u1 for game gA at event 100. -/
def submissionA : BetRecord :=
  { exSpreadBet with game_id := "gA" }

/-- A fresh submission by user u1 for a different game gB at event 200. -/
def submissionB : BetRecord :=
  { exSpreadBet with game_id := "gB", event_datetime := 200 }

/-- submissionA as create_bet persists it. -/
def itemA : BetRecord :=
  { submissionA with PK := "ROOM#r1", SK := mkSK 2 "u1" 100 }

/-- submissionB as create_bet persists it. -/
def itemB : BetRecord :=
  { submissionB with PK := "ROOM#r1", SK := mkSK 2 "u1" 200 }

/-- A stored ungraded bet with no odds_snapshot dict (the else branch of
the snapshot refresh). -/
def noSnapshotBet : BetRecord :=
  { exSpreadBet with
    PK := "ROOM#r9", SK := mkSK 2 "u1" 100,
    room_id := "r9", odds_snapshot := none }

/-- An in-progress game payload with a full competitor/score structure. -/
def liveGame : GameData :=
  { status := liveStatus,
    competitors :=
      [ { name := "H", abbreviation := some "HH", homeAway := "home", score := some 10 },
        { name := "A", abbreviation := some "AA", homeAway := "away", score := some 7 } ] }

/-- A stored ungraded spread bet whose odds_snapshot carries a malformed
spreadDetails string ("EVEN" has no second field to parse). -/
def malformedSpreadBet : BetRecord :=
  { exSpreadBet with
    PK := "ROOM#r1", SK := mkSK 2 "u1" 100,
    odds_snapshot := some { spreadDetails := some "EVEN", status := none } }

/-- A stored bet by user bobby, 2 points, event 150, in room r1. -/
def bobbyBet : BetRecord :=
  { exSpreadBet with
    user_id := "bobby", event_datetime := 150, game_id := "gBobby",
    PK := "ROOM#r1", SK := mkSK 2 "bobby" 150 }

/-- A scheduled (not yet started) game payload. -/
def schedGame : GameData :=
  { status := schedStatus,
    competitors :=
      [ { name := "H", abbreviation := none, homeAway := "home", score := some 0 },
        { name := "A", abbreviation := none, homeAway := "away", score := some 0 } ] }

/-
  Helper lemmas about the store model and small evaluation facts.
-/

theorem string_data_append (s t : String) : (s ++ t).data = s.data ++ t.data := by
  cases s
  cases t
  rfl

theorem pyLower_home : pyLower "home" = "home" := rfl

theorem pyLower_away : pyLower "away" = "away" := rfl

theorem pyLower_over : pyLower "over" = "over" := rfl

theorem pyLower_under : pyLower "under" = "under" := rfl

theorem snapshotUpdate_total_points (b : BetRecord) (g : GameData) :
    (snapshotUpdate b g).total_points_earned = b.total_points_earned := by
  cases h : b.odds_snapshot <;> simp [snapshotUpdate, h]

theorem snapshotUpdate_PK (b : BetRecord) (g : GameData) :
    (snapshotUpdate b g).PK = b.PK := by
  cases h : b.odds_snapshot <;> simp [snapshotUpdate, h]

theorem snapshotUpdate_SK (b : BetRecord) (g : GameData) :
    (snapshotUpdate b g).SK = b.SK := by
  cases h : b.odds_snapshot <;> simp [snapshotUpdate, h]

theorem snapshotUpdate_game_bet (b : BetRecord) (g : GameData) :
    (snapshotUpdate b g).game_bet = b.game_bet := by
  cases h : b.odds_snapshot <;> simp [snapshotUpdate, h]

theorem getItem_putItem (s : Store) (it : BetRecord) :
    getItem (putItem s it) it.PK it.SK = some it := by
  induction s with
  | nil => simp [putItem, getItem]
  | cons r rest ih =>
    by_cases h : r.PK = it.PK ∧ r.SK = it.SK
    · simp [putItem, h, getItem]
    · simp only [putItem, h, if_false]
      simp only [getItem] at ih ⊢
      rw [List.find?_cons_of_neg]
      · exact ih
      · simp [h]

theorem mem_of_mem_putItem {s : Store} {it r : BetRecord} (h : r ∈ putItem s it) :
    r ∈ s ∨ r = it := by
  induction s with
  | nil =>
    right
    simpa [putItem] using h
  | cons a rest ih =>
    by_cases hk : a.PK = it.PK ∧ a.SK = it.SK
    · simp only [putItem, hk, if_true] at h
      rcases List.mem_cons.mp h with h1 | h1
      · right; exact h1
      · left; exact List.mem_cons_of_mem _ h1
    · simp only [putItem, hk, if_false] at h
      rcases List.mem_cons.mp h with h1 | h1
      · left; simp [h1]
      · rcases ih h1 with h2 | h2
        · left; exact List.mem_cons_of_mem _ h2
        · right; exact h2

theorem map_putItem_eq {α : Type} (f : BetRecord → α) (s : Store) (it b : BetRecord)
    (hget : getItem s it.PK it.SK = some b) (hf : f it = f b) :
    (putItem s it).map f = s.map f := by
  induction s with
  | nil => simp [getItem] at hget
  | cons a rest ih =>
    by_cases hk : a.PK = it.PK ∧ a.SK = it.SK
    · have hab : a = b := by
        simp only [getItem] at hget
        rw [List.find?_cons_of_pos] at hget
        · exact (Option.some.injEq _ _).mp hget
        · simp [hk]
      subst hab
      simp only [putItem, hk, if_true, List.map]
      rw [hf]
    · have hget' : getItem rest it.PK it.SK = some b := by
        simp only [getItem] at hget ⊢
        rwa [List.find?_cons_of_neg] at hget
        simp [hk]
      simp only [putItem, hk, if_false, List.map]
      rw [ih hget']

theorem check_fst_indep (now : Int) (f : FeedResult) (b : BetRecord) (s t : Store) :
    (check_and_grade_bet now f b s).1 = (check_and_grade_bet now f b t).1 := by
  unfold check_and_grade_bet
  split
  · rfl
  · cases f with
    | fetchError => rfl
    | missing => rfl
    | data g =>
      dsimp only
      split
      · cases hbt : (snapshotUpdate b g).game_bet.bet_type with
        | spread =>
          simp only [hbt]
          cases hg : _grade_spread_bet (snapshotUpdate b g) g <;>
            simp [hg, _update_bet_result]
        | over_under =>
          simp only [hbt]
          cases hg : _grade_over_under_bet (snapshotUpdate b g) g <;>
            simp [hg, _update_bet_result]
      · rfl

theorem grade_over_under_eval (bet : BetRecord) (g : GameData) (L : ℚ) (T : Int) (c : String)
    (hL : bet.game_bet.total_value = some L)
    (hc : bet.game_bet.over_under_choice = some c)
    (hne : g.competitors ≠ [])
    (hT : sumScores g.competitors = some T) :
    _grade_over_under_bet bet g =
      some (if pyLower c = "over" then (if (T : ℚ) > L then bet.points_wagered else 0)
            else (if (T : ℚ) < L then bet.points_wagered else 0)) := by
  have hE : g.competitors.isEmpty = false := by
    cases hcc : g.competitors with
    | nil => exact absurd hcc hne
    | cons a l => rfl
  unfold _grade_over_under_bet
  rw [hL]
  simp only [hE, Bool.false_eq_true, if_false, hT, hc]
  by_cases hov : pyLower c = "over"
  · by_cases hTL : (T : ℚ) > L <;> simp [hov, hTL]
  · by_cases hTL : (T : ℚ) < L <;> simp [hov, hTL]

theorem grade_spread_eval (bet : BetRecord) (g : GameData) (snap : OddsSnapshot)
    (sd : String) (v : ℚ) (tc : String) (hs as_ : Int) (n1 n2 : String) (ab1 ab2 : Option String)
    (hsnap : bet.odds_snapshot = some snap)
    (hsd : snap.spreadDetails = some sd)
    (hnz : sd ≠ "")
    (hv : parseSpreadDetails sd = some v)
    (hcomp : g.competitors =
      [ { name := n1, abbreviation := ab1, homeAway := "home", score := some hs },
        { name := n2, abbreviation := ab2, homeAway := "away", score := some as_ } ])
    (htc : bet.game_bet.team_choice = some tc)
    (hhome : pyLower tc = "home") :
    _grade_spread_bet bet g =
      some (if v < 0 then (if ((hs - as_ : Int) : ℚ) ≥ |v| then bet.points_wagered else 0)
            else (if ((hs - as_ : Int) : ℚ) > v then bet.points_wagered else 0)) := by
  unfold _grade_spread_bet
  rw [hsnap]
  dsimp only
  rw [hsd]
  dsimp only
  simp only [hnz, if_false, hv, hcomp, extractScores, pyLower_home, pyLower_away,
    show (("away" : String) = "home") = False by simp [String.ext_iff],
    show (("home" : String) = "home") = True by simp,
    List.isEmpty, htc, hhome]
  by_cases hneg : v < 0
  · by_cases hcmp : ((hs - as_ : Int) : ℚ) ≥ |v| <;> simp [hneg, hcmp]
  · by_cases hcmp : ((hs - as_ : Int) : ℚ) > v <;> simp [hneg, hcmp]

theorem grade_spread_single_rule_eval (bet : BetRecord) (g : GameData) (snap : OddsSnapshot)
    (sd : String) (v : ℚ) (tc : String) (hs as_ : Int) (n1 n2 : String) (ab1 ab2 : Option String)
    (hsnap : bet.odds_snapshot = some snap)
    (hsd : snap.spreadDetails = some sd)
    (hnz : sd ≠ "")
    (hv : parseSpreadDetails sd = some v)
    (hcomp : g.competitors =
      [ { name := n1, abbreviation := ab1, homeAway := "home", score := some hs },
        { name := n2, abbreviation := ab2, homeAway := "away", score := some as_ } ])
    (htc : bet.game_bet.team_choice = some tc)
    (hhome : pyLower tc = "home") :
    grade_spread_bet_single_rule bet g =
      some (if ((hs - as_ : Int) : ℚ) > v then bet.points_wagered else 0) := by
  unfold grade_spread_bet_single_rule
  rw [hsnap]
  dsimp only
  rw [hsd]
  dsimp only
  simp only [hnz, if_false, hv, hcomp, extractScores, pyLower_home, pyLower_away,
    show (("away" : String) = "home") = False by simp [String.ext_iff],
    show (("home" : String) = "home") = True by simp,
    List.isEmpty, htc, hhome]
  by_cases hcmp : ((hs - as_ : Int) : ℚ) > v <;> simp [hcmp]

theorem parseSpread_neg35 : parseSpreadDetails "SEA -3.5" = some (-3.5 : ℚ) := by
  have h : parseSpreadDetails "SEA -3.5" =
      some (-((3 : ℚ) + (5 : ℚ) / (10 : ℚ) ^ (1 : ℕ))) := rfl
  rw [h]
  norm_num

theorem abs_neg35 : |(-3.5 : ℚ)| = 3.5 := by
  rw [abs_of_nonpos] <;> norm_num

theorem is_final_scheduled (st : GameStatus) (hn : st.name = "STATUS_SCHEDULED")
    (hc : st.completed = false) (hs : st.state ≠ "post")
    (hd : pyLower st.detail ≠ "final") :
    is_final st = false := by
  simp [is_final, hn, hc, hs, hd,
    show pyLower "STATUS_SCHEDULED" = "status_scheduled" from rfl,
    show (("status_scheduled" : String) = "final") = False by simp [String.ext_iff],
    show (("status_scheduled" : String) = "status_final") = False by simp [String.ext_iff]]

theorem grade_iter_not_final (now : Int) (g : GameData) (hfin : is_final g.status = false) :
    ∀ (n : Nat) (bet : BetRecord) (store : Store), bet.total_points_earned = none →
      (grade_iter now (.data g) n (bet, store)).1.total_points_earned = none := by
  intro n
  induction n with
  | zero =>
    intro bet store h0
    simpa [grade_iter] using h0
  | succ k ih =>
    intro bet store h0
    show (grade_iter now (.data g) k
      (gradeStep now (.data g) (bet, store))).1.total_points_earned = none
    have h1 : (gradeStep now (.data g) (bet, store)).1 = snapshotUpdate bet g := by
      simp [gradeStep, check_and_grade_bet, h0, hfin]
    rw [show gradeStep now (.data g) (bet, store) =
        ((gradeStep now (.data g) (bet, store)).1,
         (gradeStep now (.data g) (bet, store)).2) from rfl]
    rw [h1]
    exact ih _ _ (by rw [snapshotUpdate_total_points]; exact h0)

/-
  Claim theorems.
-/

/-- C1 counterexample.  The claim says grading uses the single rule
"win iff margin > spread_value" with no special-casing of negative
spreads.  At spread_value = -3.5 (home selection) and a 20-20 final the
margin 0 exceeds the signed line -3.5, so the claimed rule awards a win,
yet _grade_spread_bet grades the bet a loss (0 points) because the code
branches on the sign of the spread and requires margin >= 3.5.  The
spec-worded single-rule grader awards the 2 wagered points on the same
input. -/
theorem c1_spread_rule_counterexample :
    _grade_spread_bet exSpreadBet (exGame 20 20) = some 0 ∧
    ((20 - 20 : Int) : ℚ) > -3.5 ∧
    grade_spread_bet_single_rule exSpreadBet (exGame 20 20) = some 2 := by
  refine ⟨?_, by norm_num, ?_⟩
  · rw [grade_spread_eval exSpreadBet (exGame 20 20)
      { spreadDetails := some "SEA -3.5", status := none } "SEA -3.5" (-3.5) "home"
      20 20 "H" "A" none none rfl rfl (by decide) parseSpread_neg35 rfl rfl pyLower_home]
    norm_num [abs_neg35, exSpreadBet]
  · rw [grade_spread_single_rule_eval exSpreadBet (exGame 20 20)
      { spreadDetails := some "SEA -3.5", status := none } "SEA -3.5" (-3.5) "home"
      20 20 "H" "A" none none rfl rfl (by decide) parseSpread_neg35 rfl rfl pyLower_home]
    norm_num [exSpreadBet, exSpreadGameBet]

/-- C1 amended.  Spread grading branches on the sign of the parsed line:
for spread_value < 0 the bet wins iff margin >= |spread_value|, and for
spread_value >= 0 iff margin > spread_value (margin = selected team's
score minus opponent's score, home selection shown).  The two cited
examples hold: at -3.5 a 24-20 home final wins the wagered points and a
23-20 home final loses, because at half-point negative lines the code's
rule and the spec's examples coincide. -/
theorem c1_spread_rule_amended (bet : BetRecord) (g : GameData) (snap : OddsSnapshot)
    (sd : String) (v : ℚ) (tc : String) (hs as_ : Int) (n1 n2 : String) (ab1 ab2 : Option String)
    (hsnap : bet.odds_snapshot = some snap)
    (hsd : snap.spreadDetails = some sd)
    (hnz : sd ≠ "")
    (hv : parseSpreadDetails sd = some v)
    (hcomp : g.competitors =
      [ { name := n1, abbreviation := ab1, homeAway := "home", score := some hs },
        { name := n2, abbreviation := ab2, homeAway := "away", score := some as_ } ])
    (htc : bet.game_bet.team_choice = some tc)
    (hhome : pyLower tc = "home") :
    (_grade_spread_bet bet g =
      some (if v < 0 then (if ((hs - as_ : Int) : ℚ) ≥ |v| then bet.points_wagered else 0)
            else (if ((hs - as_ : Int) : ℚ) > v then bet.points_wagered else 0))) ∧
    _grade_spread_bet exSpreadBet (exGame 24 20) = some 2 ∧
    _grade_spread_bet exSpreadBet (exGame 23 20) = some 0 := by
  refine ⟨grade_spread_eval bet g snap sd v tc hs as_ n1 n2 ab1 ab2
    hsnap hsd hnz hv hcomp htc hhome, ?_, ?_⟩
  · rw [grade_spread_eval exSpreadBet (exGame 24 20)
      { spreadDetails := some "SEA -3.5", status := none } "SEA -3.5" (-3.5) "home"
      24 20 "H" "A" none none rfl rfl (by decide) parseSpread_neg35 rfl rfl pyLower_home]
    rw [abs_neg35]
    norm_num [exSpreadBet]
  · rw [grade_spread_eval exSpreadBet (exGame 23 20)
      { spreadDetails := some "SEA -3.5", status := none } "SEA -3.5" (-3.5) "home"
      23 20 "H" "A" none none rfl rfl (by decide) parseSpread_neg35 rfl rfl pyLower_home]
    rw [abs_neg35]
    norm_num [exSpreadBet]

/-- C1 witness: the amended characterization applied to the concrete
24-20 final at the parsed -3.5 home line. -/
theorem c1_spread_rule_witness :
    _grade_spread_bet exSpreadBet (exGame 24 20) =
      some (if (-3.5 : ℚ) < 0 then
              (if ((24 - 20 : Int) : ℚ) ≥ |(-3.5 : ℚ)| then exSpreadBet.points_wagered else 0)
            else (if ((24 - 20 : Int) : ℚ) > (-3.5 : ℚ) then exSpreadBet.points_wagered else 0)) :=
  (c1_spread_rule_amended exSpreadBet (exGame 24 20)
    { spreadDetails := some "SEA -3.5", status := none } "SEA -3.5" (-3.5) "home"
    24 20 "H" "A" none none rfl rfl (by decide) parseSpread_neg35 rfl rfl pyLower_home).1

/-- C3.  Grading is idempotent on graded bets: when total_points_earned
is non-null, check_and_grade_bet returns "nothing to do" and leaves the
store untouched, and any number of read-path grading invocations leaves
the bet record (hence total_points_earned, graded_at and the embedded
game_bet result) and the store exactly as they were. -/
theorem c3_grading_idempotent (now : Int) (feed : FeedResult) (bet : BetRecord)
    (store : Store) (v : Nat) (h : bet.total_points_earned = some v) :
    check_and_grade_bet now feed bet store = (none, store) ∧
    ∀ n, grade_iter now feed n (bet, store) = (bet, store) := by
  have h1 : check_and_grade_bet now feed bet store = (none, store) := by
    unfold check_and_grade_bet
    simp [h]
  refine ⟨h1, ?_⟩
  intro n
  induction n with
  | zero => rfl
  | succ k ih =>
    show grade_iter now feed k (gradeStep now feed (bet, store)) = (bet, store)
    rw [show gradeStep now feed (bet, store) = (bet, store) from by simp [gradeStep, h1]]
    exact ih

/-- C3 witness: five grading invocations on a concretely graded bet. -/
theorem c3_grading_idempotent_witness :
    check_and_grade_bet 0 (.data (exGame 24 20)) gradedBet [gradedBet] = (none, [gradedBet]) ∧
    grade_iter 0 (.data (exGame 24 20)) 5 (gradedBet, [gradedBet]) = (gradedBet, [gradedBet]) := by
  have h := c3_grading_idempotent 0 (.data (exGame 24 20)) gradedBet [gradedBet] 2 rfl
  exact ⟨h.1, h.2 5⟩

/-- C4.  A game is judged final iff at least one of the four signals
holds (lowercased status name in {final, status_final}, lowercased
detail equal to final, completed flag true, state equal to post), and an
ungraded bet on a STATUS_SCHEDULED game (completed false, state not
post, detail not final) stays ungraded no matter how many times the
read-path grading runs. -/
theorem c4_finality_four_signals :
    (∀ st : GameStatus, is_final st = true ↔
      (pyLower st.name ∈ (["final", "status_final"] : List String) ∨
       pyLower st.detail = "final" ∨ st.completed = true ∨ st.state = "post")) ∧
    (∀ (now : Int) (g : GameData) (bet : BetRecord) (store : Store) (n : Nat),
      bet.total_points_earned = none →
      g.status.name = "STATUS_SCHEDULED" → g.status.completed = false →
      g.status.state ≠ "post" → pyLower g.status.detail ≠ "final" →
      (grade_iter now (.data g) n (bet, store)).1.total_points_earned = none) := by
  constructor
  · intro st
    simp [is_final, or_assoc]
  · intro now g bet store n h0 hn hc hs hd
    exact grade_iter_not_final now g (is_final_scheduled g.status hn hc hs hd) n bet store h0

/-- C4 witness: three grading passes over an ungraded bet on a concrete
scheduled game leave total_points_earned null. -/
theorem c4_finality_witness :
    (grade_iter 0 (.data schedGame) 3 (exSpreadBet, [])).1.total_points_earned = none :=
  c4_finality_four_signals.2 0 schedGame exSpreadBet [] 3 rfl rfl rfl
    (by decide) (by decide)

/-- C5.  Over/under grading: an "over" selection wins (earns the wagered
points) iff the summed final score strictly exceeds the total line, an
"under" selection wins iff the sum is strictly below the line, and a sum
exactly on the line earns 0 for every selection — no push outcome
exists. -/
theorem c5_over_under_rule (bet : BetRecord) (g : GameData) (L : ℚ) (T : Int) (c : String)
    (hL : bet.game_bet.total_value = some L)
    (hc : bet.game_bet.over_under_choice = some c)
    (hne : g.competitors ≠ [])
    (hT : sumScores g.competitors = some T) :
    (pyLower c = "over" →
      _grade_over_under_bet bet g = some (if (T : ℚ) > L then bet.points_wagered else 0)) ∧
    (pyLower c = "under" →
      _grade_over_under_bet bet g = some (if (T : ℚ) < L then bet.points_wagered else 0)) ∧
    ((T : ℚ) = L → _grade_over_under_bet bet g = some 0) := by
  have He := grade_over_under_eval bet g L T c hL hc hne hT
  refine ⟨?_, ?_, ?_⟩
  · intro hov
    rw [He]
    simp [hov]
  · intro hun
    have hnov : ¬ pyLower c = "over" := by
      rw [hun]
      decide
    rw [He]
    simp [hnov]
  · intro heq
    rw [He]
    by_cases hov : pyLower c = "over" <;> simp [hov, heq]

/-- C5 witness: the spec's 45.5-line examples.  24+20 = 44 is not above
the line, so the over bet earns 0; 24+22 = 46 is, so it earns its 3
wagered points; the under bet at a sum exactly on a 44.0 line also earns
0. -/
theorem c5_over_under_witness :
    _grade_over_under_bet exOverBet (exGame 24 20) = some 0 ∧
    _grade_over_under_bet exOverBet (exGame 24 22) = some 3 := by
  constructor
  · have h := (c5_over_under_rule exOverBet (exGame 24 20) 45.5 44 "over"
      rfl rfl (by decide) (by decide)).1 pyLower_over
    rw [h]
    norm_num
  · have h := (c5_over_under_rule exOverBet (exGame 24 22) 45.5 46 "over"
      rfl rfl (by decide) (by decide)).1 pyLower_over
    rw [h]
    norm_num [exOverBet]

/-- C2 counterexample.  The claim says create_bet's write is an atomic
conditional put that fails when the key exists.  With storedBet already
occupying the (room, points, user, event) key, the write step succeeds
and overwrites it with a different record — table.put_item carries no
ConditionExpression. -/
theorem c2_conditional_put_counterexample :
    getItem [storedBet] storedBetOverwrite.PK storedBetOverwrite.SK = some storedBet ∧
    create_bet_write [storedBet] storedBetOverwrite =
      .ok (storedBetOverwrite, [storedBetOverwrite]) ∧
    storedBetOverwrite ≠ storedBet := by
  refine ⟨by decide, ?_, by decide⟩
  show Except.ok (storedBetOverwrite, putItem [storedBet] storedBetOverwrite) =
    Except.ok (storedBetOverwrite, [storedBetOverwrite])
  rw [show putItem [storedBet] storedBetOverwrite = [storedBetOverwrite] from by decide]

/-- C2 amended.  create_bet's write step is an unconditional put: even
when a record with the same key already exists, the write succeeds and
afterwards the key holds the new item (the old record is replaced).
Protection against duplicates comes only from the earlier read-then-check
existence check in create_bet, not from the write itself. -/
theorem c2_unconditional_put_amended (store : Store) (item b : BetRecord)
    (h : getItem store item.PK item.SK = some b) :
    create_bet_write store item = .ok (item, putItem store item) ∧
    getItem (putItem store item) item.PK item.SK = some item :=
  ⟨rfl, getItem_putItem store item⟩

/-- C2 witness: the amended statement at the concrete occupied store. -/
theorem c2_unconditional_put_witness :
    getItem [storedBet] storedBetOverwrite.PK storedBetOverwrite.SK = some storedBet ∧
    (create_bet_write [storedBet] storedBetOverwrite =
       .ok (storedBetOverwrite, putItem [storedBet] storedBetOverwrite) ∧
     getItem (putItem [storedBet] storedBetOverwrite)
       storedBetOverwrite.PK storedBetOverwrite.SK = some storedBetOverwrite) :=
  ⟨by decide, c2_unconditional_put_amended [storedBet] storedBetOverwrite storedBet (by decide)⟩

/-- C7.  Whenever the exact (room, points, user, event) key already
holds a record, create_bet raises the exact-duplicate
DuplicateBetException from its first existence check, for every feed
outcome and every resolved week boundary — the week-range check is never
reached, so the rejection is never reported as a week conflict. -/
theorem c7_exact_duplicate_precedes_week_check (now : Int) (feed : FeedResult)
    (boundary : Option (Int × Int)) (bet : BetRecord) (store : Store) (r : BetRecord)
    (h : getItem store (mkPK bet.room_id)
      (mkSK bet.points_wagered bet.user_id bet.event_datetime) = some r) :
    create_bet now feed boundary bet store = .error .exactDuplicate := by
  unfold create_bet get_bet
  rw [h]
  simp

/-- C7 witness: resubmitting the stored bet's identity is rejected as an
exact duplicate even though the supplied week boundary (0, 1000) also
covers the stored bet's event time 100. -/
theorem c7_exact_duplicate_witness :
    create_bet 0 .missing (some (0, 1000)) submissionDup [storedBet] =
      .error .exactDuplicate :=
  c7_exact_duplicate_precedes_week_check 0 .missing (some (0, 1000)) submissionDup
    [storedBet] storedBet (by decide)

/-- Every record the grading step leaves in the store either was there
before, or is the snapshot-refreshed record, or is the graded record
derived from it. -/
theorem check_data_store_cases (now : Int) (g : GameData) (bet : BetRecord) (store : Store) :
    ∀ r ∈ (check_and_grade_bet now (.data g) bet store).2,
      r ∈ store ∨ r = snapshotUpdate bet g ∨
      ∃ pts, r = (_update_bet_result now (snapshotUpdate bet g) pts store).1 := by
  intro r hr
  by_cases htp : bet.total_points_earned.isSome = true
  · unfold check_and_grade_bet at hr
    rw [if_pos htp] at hr
    exact Or.inl hr
  · unfold check_and_grade_bet at hr
    rw [if_neg htp] at hr
    dsimp only at hr
    have hstore1 : ∀ x ∈ (if (snapshotUpdate bet g).PK ≠ "" ∧ (snapshotUpdate bet g).SK ≠ ""
        then putItem store (snapshotUpdate bet g) else store),
        x ∈ store ∨ x = snapshotUpdate bet g := by
      intro x hx
      by_cases hc : (snapshotUpdate bet g).PK ≠ "" ∧ (snapshotUpdate bet g).SK ≠ ""
      · rw [if_pos hc] at hx
        exact mem_of_mem_putItem hx
      · rw [if_neg hc] at hx
        exact Or.inl hx
    by_cases hfin : is_final g.status = true
    · rw [if_pos hfin] at hr
      cases hbt : (snapshotUpdate bet g).game_bet.bet_type
      all_goals rw [hbt] at hr
      all_goals dsimp only at hr
      · cases hg : _grade_spread_bet (snapshotUpdate bet g) g
        all_goals rw [hg] at hr
        all_goals dsimp only at hr
        · rcases hstore1 r hr with h | h
          · exact Or.inl h
          · exact Or.inr (Or.inl h)
        · rcases mem_of_mem_putItem hr with h | h
          · rcases hstore1 r h with h2 | h2
            · exact Or.inl h2
            · exact Or.inr (Or.inl h2)
          · exact Or.inr (Or.inr ⟨_, h⟩)
      · cases hg : _grade_over_under_bet (snapshotUpdate bet g) g
        all_goals rw [hg] at hr
        all_goals dsimp only at hr
        · rcases hstore1 r hr with h | h
          · exact Or.inl h
          · exact Or.inr (Or.inl h)
        · rcases mem_of_mem_putItem hr with h | h
          · rcases hstore1 r h with h2 | h2
            · exact Or.inl h2
            · exact Or.inr (Or.inl h2)
          · exact Or.inr (Or.inr ⟨_, h⟩)
    · rw [if_neg hfin] at hr
      dsimp only at hr
      rcases hstore1 r hr with h | h
      · exact Or.inl h
      · exact Or.inr (Or.inl h)

/-- After a grading pass over an ungraded keyed record, the record's key
holds a record whose snapshot fields are those of the snapshot-refreshed
record. -/
theorem check_data_getItem (now : Int) (g : GameData) (bet : BetRecord) (store : Store)
    (htpe : bet.total_points_earned = none) (hpk : bet.PK ≠ "") (hsk : bet.SK ≠ "") :
    ∃ r, getItem (check_and_grade_bet now (.data g) bet store).2 bet.PK bet.SK = some r ∧
      r.current_status = (snapshotUpdate bet g).current_status ∧
      r.odds_snapshot = (snapshotUpdate bet g).odds_snapshot := by
  have hK1 : (snapshotUpdate bet g).PK = bet.PK := snapshotUpdate_PK bet g
  have hK2 : (snapshotUpdate bet g).SK = bet.SK := snapshotUpdate_SK bet g
  have hcond : (snapshotUpdate bet g).PK ≠ "" ∧ (snapshotUpdate bet g).SK ≠ "" := by
    rw [hK1, hK2]
    exact ⟨hpk, hsk⟩
  unfold check_and_grade_bet
  rw [if_neg (by simp [htpe])]
  dsimp only
  rw [if_pos hcond]
  by_cases hfin : is_final g.status = true
  · rw [if_pos hfin]
    cases hbt : (snapshotUpdate bet g).game_bet.bet_type
    all_goals dsimp only
    · cases hg : _grade_spread_bet (snapshotUpdate bet g) g with
      | none =>
        dsimp only
        refine ⟨snapshotUpdate bet g, ?_, rfl, rfl⟩
        rw [← hK1, ← hK2]
        exact getItem_putItem store _
      | some pts =>
        dsimp only
        refine ⟨(_update_bet_result now (snapshotUpdate bet g) pts
          (putItem store (snapshotUpdate bet g))).1, ?_, rfl, rfl⟩
        have hP : ((_update_bet_result now (snapshotUpdate bet g) pts
            (putItem store (snapshotUpdate bet g))).1).PK = bet.PK := by
          rw [← hK1]
          rfl
        have hS : ((_update_bet_result now (snapshotUpdate bet g) pts
            (putItem store (snapshotUpdate bet g))).1).SK = bet.SK := by
          rw [← hK2]
          rfl
        rw [← hP, ← hS]
        exact getItem_putItem _ _
    · cases hg : _grade_over_under_bet (snapshotUpdate bet g) g with
      | none =>
        dsimp only
        refine ⟨snapshotUpdate bet g, ?_, rfl, rfl⟩
        rw [← hK1, ← hK2]
        exact getItem_putItem store _
      | some pts =>
        dsimp only
        refine ⟨(_update_bet_result now (snapshotUpdate bet g) pts
          (putItem store (snapshotUpdate bet g))).1, ?_, rfl, rfl⟩
        have hP : ((_update_bet_result now (snapshotUpdate bet g) pts
            (putItem store (snapshotUpdate bet g))).1).PK = bet.PK := by
          rw [← hK1]
          rfl
        have hS : ((_update_bet_result now (snapshotUpdate bet g) pts
            (putItem store (snapshotUpdate bet g))).1).SK = bet.SK := by
          rw [← hK2]
          rfl
        rw [← hP, ← hS]
        exact getItem_putItem _ _
  · rw [if_neg hfin]
    dsimp only
    refine ⟨snapshotUpdate bet g, ?_, rfl, rfl⟩
    rw [← hK1, ← hK2]
    exact getItem_putItem store _


/-- The graded-or-original record a read path emits for one bet does not
depend on the store the grading loop happens to thread through. -/
theorem map_enhance_indep (now : Int) (feed : String → FeedResult) :
    ∀ (l : List BetRecord) (s t : Store),
      l.map (fun b => _enhance_bet_with_game_data (feed b.game_id)
        (((check_and_grade_bet now (feed b.game_id) b s).1).getD b)) =
      l.map (fun b => _enhance_bet_with_game_data (feed b.game_id)
        (((check_and_grade_bet now (feed b.game_id) b t).1).getD b)) := by
  intro l s t
  induction l with
  | nil => rfl
  | cons b rest ih =>
    simp only [List.map, ih, check_fst_indep now (feed b.game_id) b s t]

/-- C8.  Feed failures abort grading for the single affected bet only:
a raised get_event exception or a falsy response returns no graded
update and leaves the store untouched; a malformed spread string on a
final game returns no graded update and leaves every stored
total_points_earned unchanged (the function is total, so no error
escapes to the caller); and on the multi-bet read paths each bet's
output is a function of that bet and its own feed result alone, so one
bet's feed error cannot prevent the grading of the others. -/
theorem c8_feed_errors_isolated :
    (∀ (now : Int) (bet : BetRecord) (store : Store),
       check_and_grade_bet now .fetchError bet store = (none, store)) ∧
    (∀ (now : Int) (bet : BetRecord) (store : Store),
       check_and_grade_bet now .missing bet store = (none, store)) ∧
    (∀ (now : Int) (g : GameData) (bet : BetRecord) (snap : OddsSnapshot)
       (store : Store) (sd : String),
       getItem store bet.PK bet.SK = some bet →
       bet.total_points_earned = none →
       bet.game_bet.bet_type = .spread →
       bet.odds_snapshot = some snap →
       snap.spreadDetails = some sd →
       sd ≠ "" →
       parseSpreadDetails sd = none →
       is_final g.status = true →
       (check_and_grade_bet now (.data g) bet store).1 = none ∧
       ((check_and_grade_bet now (.data g) bet store).2).map
           (fun r => r.total_points_earned) =
         store.map (fun r => r.total_points_earned)) ∧
    (∀ (now : Int) (feed : String → FeedResult) (bets : List BetRecord) (store : Store),
       (grade_and_enhance_list now feed bets store).1 =
         bets.map (fun b => _enhance_bet_with_game_data (feed b.game_id)
           (((check_and_grade_bet now (feed b.game_id) b store).1).getD b))) := by
  refine ⟨?_, ?_, ?_, ?_⟩
  · intro now bet store
    unfold check_and_grade_bet
    split <;> rfl
  · intro now bet store
    unfold check_and_grade_bet
    split <;> rfl
  · intro now g bet snap store sd hget htpe hbt hsnap hsd hnz hparse hfin
    have ho : (snapshotUpdate bet g).odds_snapshot =
        some { snap with status := some g.status } := by
      simp [snapshotUpdate, hsnap]
    have h1 : _grade_spread_bet (snapshotUpdate bet g) g = none := by
      unfold _grade_spread_bet
      rw [ho]
      dsimp only
      rw [show ({ snap with status := some g.status } : OddsSnapshot).spreadDetails =
        snap.spreadDetails from rfl, hsd]
      dsimp only
      rw [if_neg hnz, hparse]
    have hsame : check_and_grade_bet now (.data g) bet store =
        (none, if (snapshotUpdate bet g).PK ≠ "" ∧ (snapshotUpdate bet g).SK ≠ ""
               then putItem store (snapshotUpdate bet g) else store) := by
      unfold check_and_grade_bet
      rw [if_neg (by simp [htpe])]
      dsimp only
      rw [if_pos hfin, snapshotUpdate_game_bet, hbt]
      dsimp only
      rw [h1]
    rw [hsame]
    refine ⟨rfl, ?_⟩
    by_cases hc : (snapshotUpdate bet g).PK ≠ "" ∧ (snapshotUpdate bet g).SK ≠ ""
    · rw [if_pos hc]
      have hget1 : getItem store (snapshotUpdate bet g).PK (snapshotUpdate bet g).SK =
          some bet := by
        rw [snapshotUpdate_PK, snapshotUpdate_SK]
        exact hget
      exact map_putItem_eq (fun r => r.total_points_earned) store (snapshotUpdate bet g)
        bet hget1 (snapshotUpdate_total_points bet g)
    · rw [if_neg hc]
  · intro now feed bets store
    induction bets generalizing store with
    | nil => rfl
    | cons b rest ih =>
      show (_enhance_bet_with_game_data (feed b.game_id)
          (((check_and_grade_bet now (feed b.game_id) b store).1).getD b) ::
        (grade_and_enhance_list now feed rest
          (check_and_grade_bet now (feed b.game_id) b store).2).1) = _
      rw [ih ((check_and_grade_bet now (feed b.game_id) b store).2)]
      simp only [List.map]
      rw [map_enhance_indep now feed rest
        ((check_and_grade_bet now (feed b.game_id) b store).2) store]

/-- C8 witness: the malformed-spread branch at a concrete stored bet
whose snapshot line "EVEN" has no parsable spread value, on a final
game. -/
theorem c8_feed_errors_isolated_witness :
    (check_and_grade_bet 0 (.data (exGame 24 20)) malformedSpreadBet
      [malformedSpreadBet]).1 = none ∧
    ((check_and_grade_bet 0 (.data (exGame 24 20)) malformedSpreadBet
        [malformedSpreadBet]).2).map (fun r => r.total_points_earned) =
      [malformedSpreadBet].map (fun r => r.total_points_earned) :=
  c8_feed_errors_isolated.2.2.1 0 (exGame 24 20) malformedSpreadBet
    { spreadDetails := some "EVEN", status := none } [malformedSpreadBet] "EVEN"
    (by decide) rfl rfl rfl rfl (by decide) (by decide) (by decide)

/-- C6.  Week-boundary validation is fail-open.  With no resolved
boundary the validator allows the bet with a warning; create_bet can
then never raise the week-conflict DuplicateBetException; the NFL
resolver returns no boundary both when the schedule is unavailable and
when the game id is absent from it; and two concrete submissions with
the same (room, points, user) at different event timestamps (distinct
games) both succeed against an unresolved boundary. -/
theorem c6_week_boundary_fail_open :
    (∀ (store : Store) (room_id user_id : String) (points_wagered : Nat),
       validate_week_boundary_bet none store room_id user_id points_wagered = .ok true) ∧
    (∀ (now : Int) (feed : FeedResult) (bet : BetRecord) (store : Store),
       create_bet now feed none bet store ≠ .error .weekConflict) ∧
    (∀ (weekDates : Nat → Nat → Int × Int) (game_id : String),
       get_week_boundary_by_game_id none weekDates game_id = none) ∧
    (∀ (events : List ScheduleEvent) (weekDates : Nat → Nat → Int × Int) (game_id : String),
       (∀ e ∈ events, e.id ≠ game_id) →
       get_week_boundary_by_game_id (some events) weekDates game_id = none) ∧
    (create_bet 0 .missing none submissionA [] = .ok (itemA, [itemA]) ∧
     create_bet 0 .missing none submissionB [itemA] = .ok (itemB, [itemA, itemB])) := by
  refine ⟨fun _ _ _ _ => rfl, ?_, fun _ _ => rfl, ?_, rfl, rfl⟩
  · intro now feed bet store hcontra
    unfold create_bet at hcontra
    by_cases h1 : (get_bet now feed store bet.room_id bet.points_wagered bet.user_id
        bet.event_datetime).1.isSome = true
    · rw [if_pos h1] at hcontra
      simp at hcontra
    · rw [if_neg h1] at hcontra
      rw [show validate_week_boundary_bet none
          (get_bet now feed store bet.room_id bet.points_wagered bet.user_id
            bet.event_datetime).2 bet.room_id bet.user_id bet.points_wagered =
          Except.ok true from rfl] at hcontra
      dsimp only at hcontra
      by_cases h2 : bet.game_id ∈ get_user_game_ids_for_room
          (get_bet now feed store bet.room_id bet.points_wagered bet.user_id
            bet.event_datetime).2 bet.room_id bet.user_id
      · rw [if_pos h2] at hcontra
        simp at hcontra
      · rw [if_neg h2] at hcontra
        simp [create_bet_write] at hcontra
  · intro events weekDates game_id hnone
    unfold get_week_boundary_by_game_id find_nfl_week_by_game_id
    dsimp only
    rw [show events.find? (fun e => decide (e.id = game_id)) = none from by
      rw [List.find?_eq_none]
      intro e he
      simp [hnone e he]]

/-- C6 witness: a create_bet call that cannot produce a week conflict
under an unresolved boundary, and an id-not-found schedule lookup that
yields no boundary. -/
theorem c6_week_boundary_fail_open_witness :
    create_bet 0 .missing none submissionA [itemB] ≠ .error .weekConflict ∧
    get_week_boundary_by_game_id
      (some [{ id := "other", week := some 3, season_type := some 2 }])
      (fun _ _ => (0, 100)) "g77" = none :=
  ⟨c6_week_boundary_fail_open.2.1 0 .missing submissionA [itemB],
   c6_week_boundary_fail_open.2.2.2.1
     [{ id := "other", week := some 3, season_type := some 2 }]
     (fun _ _ => (0, 100)) "g77" (by decide)⟩

/-- C10.  The week-conflict query filters with substring containment of
"POINT#{points}#USER#{user}" in the stored sort key, and the per-game
duplicate check filters with substring containment of "USER#{user}", so
whenever a distinct user u2 extends the submitting user u1 (u1 a prefix
of u2) and u2 holds a matching bet in the resolved week, u1's valid
submission is rejected as a week conflict and u2's game ids are returned
as u1's, even though u1 holds no bet at all. -/
theorem c10_substring_user_match (room u1 u2 : String) (p : Nat) (t2 ws we : Int)
    (r2 : BetRecord) (store : Store)
    (hpre : u1.data <+: u2.data) (hne : u1 ≠ u2)
    (hmem : r2 ∈ store) (hPK : r2.PK = mkPK room) (hSK : r2.SK = mkSK p u2 t2)
    (hw1 : ws ≤ r2.event_datetime) (hw2 : r2.event_datetime ≤ we)
    (hnone : ∀ r ∈ store, r.user_id ≠ u1) :
    validate_week_boundary_bet (some (ws, we)) store room u1 p = .error .weekConflict ∧
    r2.game_id ∈ get_user_game_ids_for_room store room u1 := by
  obtain ⟨rest, hrest⟩ := hpre
  have hdata : (mkSK p u2 t2).data =
      ("POINT#".data ++ (toString p).data ++ "#USER#".data) ++
        (u1.data ++ (rest ++ ("#EVENT#".data ++ (toString t2).data))) := by
    simp [mkSK, string_data_append, List.append_assoc, ← hrest]
  have hcont1 : strContains r2.SK ("POINT#" ++ toString p ++ "#USER#" ++ u1) = true := by
    have hinf : ("POINT#" ++ toString p ++ "#USER#" ++ u1).data <:+: (mkSK p u2 t2).data := by
      refine ⟨[], rest ++ ("#EVENT#".data ++ (toString t2).data), ?_⟩
      rw [hdata]
      simp [string_data_append, List.append_assoc]
    rw [hSK]
    exact decide_eq_true hinf
  have hcont2 : strContains r2.SK ("USER#" ++ u1) = true := by
    have hhash : ("#USER#" : String).data = '#' :: ("USER#" : String).data := rfl
    have hinf : ("USER#" ++ u1).data <:+: (mkSK p u2 t2).data := by
      refine ⟨"POINT#".data ++ (toString p).data ++ ['#'],
        rest ++ ("#EVENT#".data ++ (toString t2).data), ?_⟩
      rw [hdata, hhash]
      simp [string_data_append, List.append_assoc]
    rw [hSK]
    exact decide_eq_true hinf
  have hstart : strStartsWith r2.SK "POINT#" = true := by
    have hinf : ("POINT#" : String).data <+: (mkSK p u2 t2).data := by
      refine ⟨(toString p).data ++ "#USER#".data ++
        (u1.data ++ (rest ++ ("#EVENT#".data ++ (toString t2).data))), ?_⟩
      rw [hdata]
      simp [List.append_assoc]
    rw [hSK]
    exact decide_eq_true hinf
  constructor
  · have hpred : (fun r => decide (r.PK = mkPK room)
        && strContains r.SK ("POINT#" ++ toString p ++ "#USER#" ++ u1)
        && decide (ws ≤ r.event_datetime) && decide (r.event_datetime ≤ we)) r2 = true := by
      simp [hPK, hcont1, hw1, hw2]
    have hmf : r2 ∈ store.filter (fun r => decide (r.PK = mkPK room)
        && strContains r.SK ("POINT#" ++ toString p ++ "#USER#" ++ u1)
        && decide (ws ≤ r.event_datetime) && decide (r.event_datetime ≤ we)) :=
      List.mem_filter.mpr ⟨hmem, hpred⟩
    unfold validate_week_boundary_bet
    dsimp only
    cases hfil : store.filter (fun r => decide (r.PK = mkPK room)
        && strContains r.SK ("POINT#" ++ toString p ++ "#USER#" ++ u1)
        && decide (ws ≤ r.event_datetime) && decide (r.event_datetime ≤ we)) with
    | nil =>
      rw [hfil] at hmf
      exact absurd hmf (List.not_mem_nil r2)
    | cons a l => rfl
  · refine List.mem_map.mpr ⟨r2, List.mem_filter.mpr ⟨hmem, ?_⟩, rfl⟩
    simp [hPK, hstart, hcont2]

/-- C10 witness: user "bob" is rejected because "bobby" holds the only
bet in the room, and bobby's game id is attributed to bob. -/
theorem c10_substring_user_match_witness :
    validate_week_boundary_bet (some (0, 1000)) [bobbyBet] "r1" "bob" 2 =
      .error .weekConflict ∧
    bobbyBet.game_id ∈ get_user_game_ids_for_room [bobbyBet] "r1" "bob" :=
  c10_substring_user_match "r1" "bob" "bobby" 2 150 0 1000 bobbyBet [bobbyBet]
    ⟨['b', 'y'], rfl⟩ (by decide) (List.mem_singleton.mpr rfl) rfl rfl
    (by decide) (by decide) (by decide)
theorem snapshotUpdate_game_id (b : BetRecord) (g : GameData) :
    (snapshotUpdate b g).game_id = b.game_id := by
  cases h : b.odds_snapshot <;> simp [snapshotUpdate, h]

theorem snapshotUpdate_sport (b : BetRecord) (g : GameData) :
    (snapshotUpdate b g).sport = b.sport := by
  cases h : b.odds_snapshot <;> simp [snapshotUpdate, h]

theorem snapshotUpdate_league (b : BetRecord) (g : GameData) :
    (snapshotUpdate b g).league = b.league := by
  cases h : b.odds_snapshot <;> simp [snapshotUpdate, h]

/-- A record found under a key carries that key. -/
theorem getItem_keys {s : Store} {pk sk : String} {r : BetRecord}
    (h : getItem s pk sk = some r) : r.PK = pk ∧ r.SK = sk := by
  have hp := List.find?_some h
  exact of_decide_eq_true hp

/-- A graded update produced by check_and_grade_bet keeps the record's
keys and identity fields. -/
theorem check_fst_preserves (now : Int) (f : FeedResult) (bet : BetRecord) (store : Store)
    (r : BetRecord) (h : (check_and_grade_bet now f bet store).1 = some r) :
    r.PK = bet.PK ∧ r.SK = bet.SK ∧ r.game_id = bet.game_id ∧
    r.sport = bet.sport ∧ r.league = bet.league := by
  unfold check_and_grade_bet at h
  by_cases htp : bet.total_points_earned.isSome = true
  · rw [if_pos htp] at h
    simp at h
  · rw [if_neg htp] at h
    cases f with
    | fetchError => simp at h
    | missing => simp at h
    | data g =>
      dsimp only at h
      by_cases hfin : is_final g.status = true
      · rw [if_pos hfin] at h
        cases hbt : (snapshotUpdate bet g).game_bet.bet_type
        all_goals rw [hbt] at h
        all_goals dsimp only at h
        · cases hg : _grade_spread_bet (snapshotUpdate bet g) g
          all_goals rw [hg] at h
          all_goals dsimp only at h
          · simp at h
          · injection h with h
            subst h
            exact ⟨snapshotUpdate_PK bet g, snapshotUpdate_SK bet g,
              snapshotUpdate_game_id bet g, snapshotUpdate_sport bet g,
              snapshotUpdate_league bet g⟩
        · cases hg : _grade_over_under_bet (snapshotUpdate bet g) g
          all_goals rw [hg] at h
          all_goals dsimp only at h
          · simp at h
          · injection h with h
            subst h
            exact ⟨snapshotUpdate_PK bet g, snapshotUpdate_SK bet g,
              snapshotUpdate_game_id bet g, snapshotUpdate_sport bet g,
              snapshotUpdate_league bet g⟩
      · rw [if_neg hfin] at h
        dsimp only at h
        injection h with h
        subst h
        exact ⟨snapshotUpdate_PK bet g, snapshotUpdate_SK bet g,
          snapshotUpdate_game_id bet g, snapshotUpdate_sport bet g,
          snapshotUpdate_league bet g⟩

/-- The graded-or-original record of a read path keeps the keys and
identity fields of the record read. -/
theorem check_getD_preserves (now : Int) (f : FeedResult) (bet : BetRecord) (store : Store) :
    (((check_and_grade_bet now f bet store).1).getD bet).PK = bet.PK ∧
    (((check_and_grade_bet now f bet store).1).getD bet).SK = bet.SK ∧
    (((check_and_grade_bet now f bet store).1).getD bet).game_id = bet.game_id ∧
    (((check_and_grade_bet now f bet store).1).getD bet).sport = bet.sport ∧
    (((check_and_grade_bet now f bet store).1).getD bet).league = bet.league := by
  cases hc : (check_and_grade_bet now f bet store).1 with
  | none => simp
  | some r =>
    simp only [Option.getD_some]
    exact check_fst_preserves now f bet store r hc

/-- When the feed returns data, the identity fields are non-empty and
every competitor score parses, enhancement attaches the feed-derived
game_status overlay (status plus home/away team views with scores). -/
theorem enhance_data_eq (g : GameData) (b : BetRecord) (ht at_ : Option TeamInfo)
    (h1 : b.game_id ≠ "") (h2 : b.sport ≠ "") (h3 : b.league ≠ "")
    (hbt : buildTeamViews g.competitors (none, none) = some (ht, at_)) :
    _enhance_bet_with_game_data (.data g) b =
      { b with game_status := some { status := g.status, home_team := ht,
                                     away_team := at_, game_id := b.game_id } } := by
  unfold _enhance_bet_with_game_data
  rw [if_neg (by simp [h1, h2, h3])]
  dsimp only
  rw [hbt]

/-- Looking a freshly put record back up by its own key yields its
game_status and total_points_earned. -/
theorem putItem_reset_lookup (S : Store) (rec : BetRecord) (pk sk : String)
    (hP : rec.PK = pk) (hS : rec.SK = sk) :
    Option.map (fun r => (r.game_status, r.total_points_earned))
      (getItem (putItem S rec) pk sk) =
      some (rec.game_status, rec.total_points_earned) := by
  subst hP
  subst hS
  rw [getItem_putItem]
  rfl

/-- reset_bet persists the read-path enhancement: the record put back
under the bet's key carries the feed-derived game_status overlay —
competitor names and scores included — together with the nulled
total_points_earned. -/
theorem reset_bet_persists_enhancement (now : Int) (g : GameData) (bet : BetRecord)
    (store : Store) (room : String) (p : Nat) (u : String) (t : Int)
    (ht at_ : Option TeamInfo)
    (hget : getItem store (mkPK room) (mkSK p u t) = some bet)
    (h1 : bet.game_id ≠ "") (h2 : bet.sport ≠ "") (h3 : bet.league ≠ "")
    (hbt : buildTeamViews g.competitors (none, none) = some (ht, at_)) :
    Option.map (fun r => (r.game_status, r.total_points_earned))
      (getItem (reset_bet now (.data g) store room p u t) (mkPK room) (mkSK p u t)) =
      some (some { status := g.status, home_team := ht, away_team := at_,
                   game_id := bet.game_id }, none) := by
  obtain ⟨hbPK, hbSK⟩ := getItem_keys hget
  obtain ⟨fPK, fSK, fgid, fsp, flg⟩ := check_getD_preserves now (.data g) bet store
  unfold reset_bet get_bet
  rw [hget]
  dsimp only
  rw [enhance_data_eq g _ ht at_ (by rw [fgid]; exact h1) (by rw [fsp]; exact h2)
    (by rw [flg]; exact h3) hbt]
  refine (putItem_reset_lookup _ _ _ _ ?_ ?_).trans ?_
  · show (((check_and_grade_bet now (.data g) bet store).1).getD bet).PK = mkPK room
    rw [fPK, hbPK]
  · show (((check_and_grade_bet now (.data g) bet store).1).getD bet).SK = mkSK p u t
    rw [fSK, hbSK]
  · simp only [fgid]

/-- reset_bets_for_room persists the read-path enhancement for a room's
stored bet in the same way. -/
theorem reset_room_persists_enhancement (now : Int) (g : GameData) (bet : BetRecord)
    (room : String) (ht at_ : Option TeamInfo)
    (hPK : bet.PK = mkPK room) (hstart : strStartsWith bet.SK "POINT#" = true)
    (h1 : bet.game_id ≠ "") (h2 : bet.sport ≠ "") (h3 : bet.league ≠ "")
    (hbt : buildTeamViews g.competitors (none, none) = some (ht, at_)) :
    Option.map (fun r => (r.game_status, r.total_points_earned))
      (getItem (reset_bets_for_room now (fun _ => .data g) [bet] room).2 bet.PK bet.SK) =
      some (some { status := g.status, home_team := ht, away_team := at_,
                   game_id := bet.game_id }, none) := by
  obtain ⟨fPK, fSK, fgid, fsp, flg⟩ := check_getD_preserves now (.data g) bet [bet]
  unfold reset_bets_for_room get_all_bets_for_room
  rw [show List.filter (fun r => decide (r.PK = mkPK room) && strStartsWith r.SK "POINT#") [bet]
      = [bet] from by simp [List.filter, hPK, hstart]]
  simp only [grade_and_enhance_list, List.foldl]
  rw [enhance_data_eq g _ ht at_ (by rw [fgid]; exact h1) (by rw [fsp]; exact h2)
    (by rw [flg]; exact h3) hbt]
  refine (putItem_reset_lookup _ _ _ _ ?_ ?_).trans ?_
  · show (((check_and_grade_bet now (.data g) bet [bet]).1).getD bet).PK = bet.PK
    exact fPK
  · show (((check_and_grade_bet now (.data g) bet [bet]).1).getD bet).SK = bet.SK
    exact fSK
  · simp only [fgid]

/-- C9 amended.  During grading, a record with a dict odds_snapshot has
only the copied status fields written into its odds_snapshot
(current_status untouched), but a record without one has the raw feed
payload — the full GameData with its competitor/score structure —
written verbatim into its persisted current_status; and on the reset
paths (reset_bet and reset_bets_for_room), which fetch records through
the read path, the feed-derived game_status enhancement overlay
(status plus home/away team names and scores) is persisted back into
the record together with the nulled total_points_earned. -/
theorem c9_snapshot_persistence_amended :
    (∀ (now : Int) (g : GameData) (bet : BetRecord) (snap : OddsSnapshot) (store : Store),
      bet.total_points_earned = none → bet.odds_snapshot = some snap →
      ∀ r ∈ (check_and_grade_bet now (.data g) bet store).2,
        r ∈ store ∨ (r.odds_snapshot = some { snap with status := some g.status } ∧
                     r.current_status = bet.current_status)) ∧
    (∀ (now : Int) (g : GameData) (bet : BetRecord) (store : Store),
      bet.total_points_earned = none → bet.odds_snapshot = none →
      bet.PK ≠ "" → bet.SK ≠ "" →
      Option.map (fun r => r.current_status)
        (getItem (check_and_grade_bet now (.data g) bet store).2 bet.PK bet.SK) =
        some (some g)) ∧
    (∀ (now : Int) (g : GameData) (bet : BetRecord) (store : Store) (room : String)
       (p : Nat) (u : String) (t : Int) (ht at_ : Option TeamInfo),
       getItem store (mkPK room) (mkSK p u t) = some bet →
       bet.game_id ≠ "" → bet.sport ≠ "" → bet.league ≠ "" →
       buildTeamViews g.competitors (none, none) = some (ht, at_) →
       Option.map (fun r => (r.game_status, r.total_points_earned))
         (getItem (reset_bet now (.data g) store room p u t) (mkPK room) (mkSK p u t)) =
         some (some { status := g.status, home_team := ht, away_team := at_,
                      game_id := bet.game_id }, none)) ∧
    (∀ (now : Int) (g : GameData) (bet : BetRecord) (room : String)
       (ht at_ : Option TeamInfo),
       bet.PK = mkPK room → strStartsWith bet.SK "POINT#" = true →
       bet.game_id ≠ "" → bet.sport ≠ "" → bet.league ≠ "" →
       buildTeamViews g.competitors (none, none) = some (ht, at_) →
       Option.map (fun r => (r.game_status, r.total_points_earned))
         (getItem (reset_bets_for_room now (fun _ => .data g) [bet] room).2
           bet.PK bet.SK) =
         some (some { status := g.status, home_team := ht, away_team := at_,
                      game_id := bet.game_id }, none)) := by
  refine ⟨?_, ?_, ?_, ?_⟩
  · intro now g bet snap store htpe hsnap r hr
    have hb1o : (snapshotUpdate bet g).odds_snapshot =
        some { snap with status := some g.status } := by
      simp [snapshotUpdate, hsnap]
    have hb1c : (snapshotUpdate bet g).current_status = bet.current_status := by
      simp [snapshotUpdate, hsnap]
    rcases check_data_store_cases now g bet store r hr with h | h | ⟨pts, h⟩
    · exact Or.inl h
    · subst h
      exact Or.inr ⟨hb1o, hb1c⟩
    · subst h
      refine Or.inr ⟨?_, ?_⟩
      · rw [show ((_update_bet_result now (snapshotUpdate bet g) pts store).1).odds_snapshot =
            (snapshotUpdate bet g).odds_snapshot from rfl]
        exact hb1o
      · rw [show ((_update_bet_result now (snapshotUpdate bet g) pts store).1).current_status =
            (snapshotUpdate bet g).current_status from rfl]
        exact hb1c
  · intro now g bet store htpe hsnap hpk hsk
    obtain ⟨r, hget, hcur, _⟩ := check_data_getItem now g bet store htpe hpk hsk
    rw [hget]
    show some r.current_status = some (some g)
    rw [hcur]
    simp [snapshotUpdate, hsnap]
  · intro now g bet store room p u t ht at_ hget h1 h2 h3 hbt
    exact reset_bet_persists_enhancement now g bet store room p u t ht at_ hget h1 h2 h3 hbt
  · intro now g bet room ht at_ hPK hstart h1 h2 h3 hbt
    exact reset_room_persists_enhancement now g bet room ht at_ hPK hstart h1 h2 h3 hbt

/-- C9 witness: all four amended parts at concrete stores — a stored
bet with a snapshot dict, one without, and the two reset paths over a
stored bet, each persisting the feed-derived overlay. -/
theorem c9_snapshot_persistence_witness :
    (∀ r ∈ (check_and_grade_bet 0 (.data liveGame) storedBet [storedBet]).2,
       r ∈ [storedBet] ∨
       (r.odds_snapshot = some { spreadDetails := some "SEA -3.5", status := some liveStatus } ∧
        r.current_status = none)) ∧
    Option.map (fun r => r.current_status)
      (getItem (check_and_grade_bet 0 (.data liveGame) noSnapshotBet [noSnapshotBet]).2
        noSnapshotBet.PK noSnapshotBet.SK) = some (some liveGame) ∧
    Option.map (fun r => (r.game_status, r.total_points_earned))
      (getItem (reset_bet 0 (.data liveGame) [storedBet] "r1" 2 "u1" 100)
        (mkPK "r1") (mkSK 2 "u1" 100)) =
      some (some { status := liveGame.status,
                   home_team := some { name := "H", short_name := "HH", score := 10 },
                   away_team := some { name := "A", short_name := "AA", score := 7 },
                   game_id := storedBet.game_id }, none) ∧
    Option.map (fun r => (r.game_status, r.total_points_earned))
      (getItem (reset_bets_for_room 0 (fun _ => .data liveGame) [storedBet] "r1").2
        storedBet.PK storedBet.SK) =
      some (some { status := liveGame.status,
                   home_team := some { name := "H", short_name := "HH", score := 10 },
                   away_team := some { name := "A", short_name := "AA", score := 7 },
                   game_id := storedBet.game_id }, none) := by
  refine ⟨?_, ?_, ?_, ?_⟩
  · intro r hr
    exact c9_snapshot_persistence_amended.1 0 liveGame storedBet
      { spreadDetails := some "SEA -3.5", status := none } [storedBet] rfl rfl r hr
  · exact c9_snapshot_persistence_amended.2.1 0 liveGame noSnapshotBet [noSnapshotBet] rfl rfl (by decide) (by decide)
  · exact c9_snapshot_persistence_amended.2.2.1 0 liveGame storedBet [storedBet] "r1" 2 "u1" 100
      (some { name := "H", short_name := "HH", score := 10 })
      (some { name := "A", short_name := "AA", score := 7 })
      (by decide) (by decide) (by decide) (by decide) (by decide)
  · exact c9_snapshot_persistence_amended.2.2.2 0 liveGame storedBet "r1"
      (some { name := "H", short_name := "HH", score := 10 })
      (some { name := "A", short_name := "AA", score := 7 })
      rfl (by decide) (by decide) (by decide) (by decide) (by decide)

/-- C9 counterexample.  The claim says that on every grading, read or
reset path the only snapshot data written to the store is the status
fields copied into odds_snapshot, and the raw feed payload is never
written into the persisted record.  Two concrete refutations: grading a
stored bet without a dict odds_snapshot persists the entire live feed
payload verbatim under current_status, and reset_bet on a bet WITH a
dict odds_snapshot persists the feed-derived game_status overlay with
competitor names and scores into the record. -/
theorem c9_snapshot_not_persisted_counterexample :
    Option.map (fun r => r.current_status)
      (getItem (check_and_grade_bet 0 (.data liveGame) noSnapshotBet [noSnapshotBet]).2
        noSnapshotBet.PK noSnapshotBet.SK) = some (some liveGame) ∧
    liveGame.competitors ≠ [] ∧ noSnapshotBet.odds_snapshot = none ∧
    Option.map (fun r => (r.game_status, r.total_points_earned))
      (getItem (reset_bet 0 (.data liveGame) [storedBet] "r1" 2 "u1" 100)
        storedBet.PK storedBet.SK) =
      some (some { status := liveStatus,
                   home_team := some { name := "H", short_name := "HH", score := 10 },
                   away_team := some { name := "A", short_name := "AA", score := 7 },
                   game_id := "g1" }, none) := by
  refine ⟨by decide, by decide, rfl, by decide⟩
